import Mathlib

/-!
Shallow embedding of the `http-response-kit` library core:
the status-code definition tables with their resolvers
(`src/constants/error-definitions.ts`, `src/constants/success-definitions.ts`),
the global configuration store (`src/config/index.ts`),
the `HttpError` class (`src/errors/HttpError.ts`)
and the two `HttpResponse` formatter implementations present in the
repository (an older and a newer copy of `src/responses/HttpResponse.ts`,
embedded here with the suffixes `_v1` and `_v2` respectively).

JavaScript values that can appear in a response envelope are modelled by
`JsValue`; JavaScript objects are modelled as association lists in key
insertion order, with `objGet` / `objSet` / `objAssign` mirroring property
lookup, property assignment and `Object.assign`.  JavaScript numbers are
modelled by `JsNumber` (an integer, or one of the non-finite values that
division by zero produces).  Absent optional inputs are modelled with
`Option`, and the truthiness tests the source performs (`if (message)`,
`if (error.retryAfter)`, ...) are embedded explicitly.
-/

/-- A JavaScript number as it can occur in the formatter's arithmetic:
an integer, `Infinity`, `-Infinity`, or `NaN`. -/
inductive JsNumber where
  | int (n : Int)
  | posInf
  | negInf
  | nan
deriving DecidableEq, Repr

/-- Ceiling of the exact rational quotient `a / b` for `b ≠ 0`,
as an integer (`Math.ceil(a / b)` for integer JavaScript operands). -/
def ceilDivInt (a b : Int) : Int := -((-a).fdiv b)

/-- `Math.ceil(a / b)` on integer JavaScript operands, including the
non-finite results JavaScript produces when `b = 0`. -/
def jsCeilDiv (a b : Int) : JsNumber :=
  if b = 0 then
    if a > 0 then .posInf else if a < 0 then .negInf else .nan
  else
    .int (ceilDivInt a b)

/-- JavaScript `page < totalPages` where the right operand may be non-finite. -/
def jsLtNum (a : Int) : JsNumber → Bool
  | .int n => a < n
  | .posInf => true
  | .negInf => false
  | .nan => false

/-- A JSON-like JavaScript runtime value (the payloads and envelope fields
the library manipulates). `undef` is JavaScript `undefined`. -/
inductive JsValue where
  | null
  | undef
  | bool (b : Bool)
  | num (n : JsNumber)
  | str (s : String)
  | arr (elems : List JsValue)
  | obj (fields : List (String × JsValue))

/-- A JavaScript object: fields in key insertion order, keys unique. -/
abbrev JsObj := List (String × JsValue)

/-- Property read `o[k]`: `none` when the key is absent. -/
def objGet (o : JsObj) (k : String) : Option JsValue :=
  o.lookup k

/-- Property write `o[k] = v`: updates the value in place when the key is
present, appends the key otherwise (JavaScript insertion-order semantics). -/
def objSet (o : JsObj) (k : String) (v : JsValue) : JsObj :=
  match o with
  | [] => [(k, v)]
  | (k', v') :: rest => if k' == k then (k', v) :: rest else (k', v') :: objSet rest k v

/-- `Object.assign(o, fields)`: assign every field of `fields` into `o`,
left to right. -/
def objAssign (o : JsObj) (fields : JsObj) : JsObj :=
  fields.foldl (fun acc kv => objSet acc kv.1 kv.2) o

/-- `v === null || v === undefined`. -/
def isNullOrUndef : JsValue → Bool
  | .null => true
  | .undef => true
  | _ => false

/-- Truthiness of an optional string field (`undefined` and `""` are falsy). -/
def strTruthy : Option String → Bool
  | some s => s ≠ ""
  | none => false

/-- Truthiness of an optional integer field (`undefined` and `0` are falsy). -/
def intTruthy : Option Int → Bool
  | some n => n ≠ 0
  | none => false

-- ============================================================================
-- Status-code constants (src/constants/status-codes.ts)
-- The enum values are pinned by the definition tables below, whose `code`
-- field must equal the enum key (a consistency invariant the repository's
-- own test suite checks).
-- ============================================================================

def HttpSuccessCode.OK : Int := 200
def HttpSuccessCode.NO_CONTENT : Int := 204
def HttpSuccessCode.RESET_CONTENT : Int := 205
def HttpRedirectCode.NOT_MODIFIED : Int := 304

-- ============================================================================
-- Error definitions (src/constants/error-definitions.ts)
-- ============================================================================

/-- `HttpErrorInfo` (src/types/index.ts). -/
structure HttpErrorInfo where
  type : String
  title : String
  code : Int
  details : String
  retryAfter : Option Int := none
  resolution : Option String := none

/-- The `HttpErrorDefinitions` record: every 4xx/5xx entry of the table,
as an association list keyed by status code. -/
def HttpErrorDefinitions : List (Int × HttpErrorInfo) :=
  [ (400, { type := "bad_request", title := "Bad Request", code := 400,
            details := "The request cannot be processed due to invalid syntax or missing parameters." }),
    (401, { type := "unauthorized", title := "Unauthorized", code := 401,
            details := "Authentication is required and has failed or not yet been provided." }),
    (402, { type := "payment_required", title := "Payment Required", code := 402,
            details := "Payment is required to access this resource." }),
    (403, { type := "forbidden", title := "Forbidden", code := 403,
            details := "The server understood the request but refuses to authorize it." }),
    (404, { type := "not_found", title := "Not Found", code := 404,
            details := "The requested resource could not be found." }),
    (405, { type := "method_not_allowed", title := "Method Not Allowed", code := 405,
            details := "The method specified in the request is not allowed for the resource." }),
    (406, { type := "not_acceptable", title := "Not Acceptable", code := 406,
            details := "The resource is not available in a format acceptable to the client." }),
    (407, { type := "proxy_authentication_required", title := "Proxy Authentication Required", code := 407,
            details := "Authentication with the proxy is required." }),
    (408, { type := "request_timeout", title := "Request Timeout", code := 408,
            details := "The server timed out waiting for the request." }),
    (409, { type := "conflict", title := "Conflict", code := 409,
            details := "The request conflicts with the current state of the resource." }),
    (410, { type := "gone", title := "Gone", code := 410,
            details := "The requested resource is no longer available and will not be available again." }),
    (411, { type := "length_required", title := "Length Required", code := 411,
            details := "The request did not specify the length of its content, which is required." }),
    (412, { type := "precondition_failed", title := "Precondition Failed", code := 412,
            details := "One or more conditions in the request header fields evaluated to false." }),
    (413, { type := "payload_too_large", title := "Payload Too Large", code := 413,
            details := "The request payload is larger than the server is willing to process." }),
    (414, { type := "uri_too_long", title := "URI Too Long", code := 414,
            details := "The URI provided was too long for the server to process." }),
    (415, { type := "unsupported_media_type", title := "Unsupported Media Type", code := 415,
            details := "The media format of the requested data is not supported by the server." }),
    (416, { type := "range_not_satisfiable", title := "Range Not Satisfiable", code := 416,
            details := "The range specified in the request header cannot be fulfilled." }),
    (417, { type := "expectation_failed", title := "Expectation Failed", code := 417,
            details := "The server cannot meet the requirements of the Expect request-header field." }),
    (418, { type := "im_a_teapot", title := "I'm a Teapot", code := 418,
            details := "The server refuses to brew coffee because it is, permanently, a teapot." }),
    (421, { type := "misdirected_request", title := "Misdirected Request", code := 421,
            details := "The request was directed at a server that is not able to produce a response." }),
    (422, { type := "unprocessable_entity", title := "Unprocessable Entity", code := 422,
            details := "The request was well-formed but was unable to be followed due to semantic errors." }),
    (423, { type := "locked", title := "Locked", code := 423,
            details := "The resource that is being accessed is locked." }),
    (424, { type := "failed_dependency", title := "Failed Dependency", code := 424,
            details := "The request failed because it depended on another request that failed." }),
    (425, { type := "too_early", title := "Too Early", code := 425,
            details := "The server is unwilling to risk processing a request that might be replayed." }),
    (426, { type := "upgrade_required", title := "Upgrade Required", code := 426,
            details := "The client should switch to a different protocol." }),
    (428, { type := "precondition_required", title := "Precondition Required", code := 428,
            details := "The origin server requires the request to be conditional." }),
    (429, { type := "too_many_requests", title := "Too Many Requests", code := 429,
            details := "The user has sent too many requests in a given amount of time.",
            retryAfter := some 60 }),
    (431, { type := "request_header_fields_too_large", title := "Request Header Fields Too Large", code := 431,
            details := "The server is unwilling to process the request because its header fields are too large." }),
    (451, { type := "unavailable_for_legal_reasons", title := "Unavailable For Legal Reasons", code := 451,
            details := "The resource is unavailable due to legal demands." }),
    (500, { type := "internal_server_error", title := "Internal Server Error", code := 500,
            details := "An unexpected error occurred on the server." }),
    (501, { type := "not_implemented", title := "Not Implemented", code := 501,
            details := "The server does not support the functionality required to fulfill the request." }),
    (502, { type := "bad_gateway", title := "Bad Gateway", code := 502,
            details := "The server received an invalid response from an upstream server." }),
    (503, { type := "service_unavailable", title := "Service Unavailable", code := 503,
            details := "The server is currently unable to handle the request due to temporary overloading or maintenance.",
            retryAfter := some 60,
            resolution := some "Try again after a short period or contact support." }),
    (504, { type := "gateway_timeout", title := "Gateway Timeout", code := 504,
            details := "The server did not receive a timely response from an upstream server." }),
    (505, { type := "http_version_not_supported", title := "HTTP Version Not Supported", code := 505,
            details := "The server does not support the HTTP protocol version used in the request." }),
    (506, { type := "variant_also_negotiates", title := "Variant Also Negotiates", code := 506,
            details := "The server has an internal configuration error during content negotiation." }),
    (507, { type := "insufficient_storage", title := "Insufficient Storage", code := 507,
            details := "The server is unable to store the representation needed to complete the request." }),
    (508, { type := "loop_detected", title := "Loop Detected", code := 508,
            details := "The server detected an infinite loop while processing the request." }),
    (509, { type := "bandwidth_limit_exceeded", title := "Bandwidth Limit Exceeded", code := 509,
            details := "The server has exceeded the bandwidth limit." }),
    (510, { type := "not_extended", title := "Not Extended", code := 510,
            details := "Further extensions to the request are required for the server to fulfill it." }),
    (511, { type := "network_authentication_required", title := "Network Authentication Required", code := 511,
            details := "The client needs to authenticate to gain network access." }) ]

/-- `getErrorDefinition(code)`:
`return HttpErrorDefinitions[code] || HttpErrorDefinitions[500];`
(an absent entry falls back to the table's 500 entry). -/
def getErrorDefinition (code : Int) : HttpErrorInfo :=
  match HttpErrorDefinitions.lookup code with
  | some info => info
  | none =>
    { type := "internal_server_error", title := "Internal Server Error", code := 500,
      details := "An unexpected error occurred on the server." }

-- ============================================================================
-- Success definitions (src/constants/success-definitions.ts)
-- ============================================================================

/-- `HttpSuccessInfo` (src/types/index.ts). -/
structure HttpSuccessInfo where
  code : Int
  description : String

/-- The `HttpSuccessDefinitions` record (HTTP 2xx codes). -/
def HttpSuccessDefinitions : List (Int × HttpSuccessInfo) :=
  [ (200, { code := 200, description := "The request has succeeded." }),
    (201, { code := 201, description := "The request has been fulfilled and resulted in a new resource being created." }),
    (202, { code := 202, description := "The request has been accepted for processing, but the processing has not been completed." }),
    (203, { code := 203, description := "The returned meta-information is from a local or third-party copy." }),
    (204, { code := 204, description := "The server successfully processed the request and is not returning any content." }),
    (205, { code := 205, description := "The server successfully processed the request and requires the requester to reset the document view." }),
    (206, { code := 206, description := "The server is delivering only part of the resource due to a range header sent by the client." }),
    (207, { code := 207, description := "The message body contains multiple status codes for multiple independent operations." }),
    (208, { code := 208, description := "The members of a DAV binding have already been enumerated in a preceding part of the response." }),
    (226, { code := 226, description := "The server has fulfilled a GET request and the response is a representation of the result of one or more instance-manipulations." }) ]

/-- The `HttpRedirectDefinitions` record (HTTP 3xx codes). -/
def HttpRedirectDefinitions : List (Int × HttpSuccessInfo) :=
  [ (300, { code := 300, description := "The request has more than one possible response." }),
    (301, { code := 301, description := "The URL of the requested resource has been changed permanently." }),
    (302, { code := 302, description := "The URI of the requested resource has been changed temporarily." }),
    (303, { code := 303, description := "The response can be found under another URI using the GET method." }),
    (304, { code := 304, description := "The resource has not been modified since the version specified by the request headers." }),
    (305, { code := 305, description := "The requested resource must be accessed through the proxy." }),
    (307, { code := 307, description := "The request should be repeated with another URI but future requests should use the original URI." }),
    (308, { code := 308, description := "The request and all future requests should be repeated using another URI." }) ]

/-- The `HttpInfoDefinitions` record (HTTP 1xx codes). -/
def HttpInfoDefinitions : List (Int × HttpSuccessInfo) :=
  [ (100, { code := 100, description := "The initial part of a request has been received and has not yet been rejected by the server." }),
    (101, { code := 101, description := "The server is switching protocols as requested by the client." }),
    (102, { code := 102, description := "The server has received and is processing the request, but no response is available yet." }),
    (103, { code := 103, description := "The server is sending some response headers before the final response." }) ]

/-- `getSuccessDefinition(code)`: checks the 2xx, 3xx, then 1xx tables and
otherwise synthesizes a generic fallback preserving the original code. -/
def getSuccessDefinition (code : Int) : HttpSuccessInfo :=
  match (HttpSuccessDefinitions.lookup code).orElse
          (fun _ => (HttpRedirectDefinitions.lookup code).orElse
            (fun _ => HttpInfoDefinitions.lookup code)) with
  | some definedInfo => definedInfo
  | none => { code := code, description := "The request was processed with a non-standard status code." }

-- ============================================================================
-- Global configuration store (src/config/index.ts)
-- ============================================================================

/-- `LibraryConfig` (src/types/index.ts): every field optional in the
TypeScript interface, hence `Option`-valued here. The response transformer
rewrites an envelope object. -/
structure LibraryConfig where
  isDevelopment : Option Bool
  includeTimestamp : Option Bool
  customMessages : Option (List (Int × String))
  responseTransformer : Option (JsObj → JsObj)

/-- A `Partial<LibraryConfig>` argument to `configure`: `none` means the
key is absent from the partial object. -/
structure PartialConfig where
  isDevelopment : Option Bool := none
  includeTimestamp : Option Bool := none
  customMessages : Option (List (Int × String)) := none
  responseTransformer : Option (JsObj → JsObj) := none

/-- The `process.env.NODE_ENV === 'development'` environment signal,
as a function of the current value of `NODE_ENV`. -/
def envSignal (nodeEnv : Option String) : Bool :=
  nodeEnv == some "development"

/-- `defaultConfig`: evaluated once when the module is first loaded, so its
`isDevelopment` field captures the environment signal at load time. -/
def defaultConfig (nodeEnvAtLoad : Option String) : LibraryConfig :=
  { isDevelopment := some (envSignal nodeEnvAtLoad),
    includeTimestamp := some true,
    customMessages := some [],
    responseTransformer := none }

/-- `configure(config)`: `currentConfig = { ...currentConfig, ...config }` —
a shallow spread where every key present in the partial object replaces the
current value wholesale. -/
def configure (currentConfig : LibraryConfig) (config : PartialConfig) : LibraryConfig :=
  { isDevelopment := config.isDevelopment.orElse (fun _ => currentConfig.isDevelopment),
    includeTimestamp := config.includeTimestamp.orElse (fun _ => currentConfig.includeTimestamp),
    customMessages := config.customMessages.orElse (fun _ => currentConfig.customMessages),
    responseTransformer := config.responseTransformer.orElse (fun _ => currentConfig.responseTransformer) }

/-- `resetConfig()`: `currentConfig = { ...defaultConfig }`. -/
def resetConfig (nodeEnvAtLoad : Option String) : LibraryConfig :=
  defaultConfig nodeEnvAtLoad

/-- `isDevelopment()`: `currentConfig.isDevelopment ?? false`.  Note it
reads the stored flag; it does not consult the environment signal. -/
def isDevelopmentFn (currentConfig : LibraryConfig) : Bool :=
  currentConfig.isDevelopment.getD false

/-- `shouldIncludeTimestamp()`: `currentConfig.includeTimestamp ?? true`. -/
def shouldIncludeTimestamp (currentConfig : LibraryConfig) : Bool :=
  currentConfig.includeTimestamp.getD true

/-- `getCustomMessage(code)`: `currentConfig.customMessages?.[code]`. -/
def getCustomMessage (currentConfig : LibraryConfig) (code : Int) : Option String :=
  match currentConfig.customMessages with
  | some messages => messages.lookup code
  | none => none

-- ============================================================================
-- HttpError (src/errors/HttpError.ts)
-- ============================================================================

/-- `HttpErrorOptions` (src/types/index.ts). The `cause` (an underlying
`Error`) is represented by its message. -/
structure HttpErrorOptions where
  message : Option String := none
  metadata : Option JsObj := none
  cause : Option String := none
  retryAfter : Option Int := none

/-- The fields of an `HttpError` instance as the constructor assigns them.
The class declares no `details` property. An instance's `stack` string is
assigned by the JavaScript runtime, not by this class; it is carried here so
the formatters can read it. -/
structure HttpError where
  name : String
  code : Int
  type : String
  title : String
  message : String
  metadata : Option JsObj
  cause : Option String
  retryAfter : Option Int
  stack : Option String

/-- `new HttpError(code, options)`: resolves the definition, computes
`options.message ?? customMessage ?? errorInfo.details`, and copies the
resolved definition's `code`/`type`/`title`.  The constructor contains no
range validation and never throws. -/
def mkHttpError (currentConfig : LibraryConfig) (code : Int)
    (options : HttpErrorOptions) (stack : Option String) : HttpError :=
  let errorInfo := getErrorDefinition code
  let customMessage := getCustomMessage currentConfig code
  let finalMessage := (options.message.orElse (fun _ => customMessage)).getD errorInfo.details
  { name := "HttpError",
    code := errorInfo.code,
    type := errorInfo.type,
    title := errorInfo.title,
    message := finalMessage,
    metadata := options.metadata,
    cause := options.cause,
    retryAfter := options.retryAfter.orElse (fun _ => errorInfo.retryAfter),
    stack := stack }

/-- `HttpError.prototype.toJSON()`: the serialization projection, with the
exact keys the method lists (there is no `details` key). -/
def HttpError.toJSON (e : HttpError) : JsObj :=
  [ ("name", .str e.name),
    ("code", .num (.int e.code)),
    ("type", .str e.type),
    ("title", .str e.title),
    ("message", .str e.message),
    ("metadata", match e.metadata with | some m => .obj m | none => .undef),
    ("retryAfter", match e.retryAfter with | some n => .num (.int n) | none => .undef) ]

/-- An arbitrary JavaScript value passed to `HttpError.fromError`:
an `HttpError` instance, some other `Error` instance (represented by its
message), or a non-`Error` value (represented by its `String(value)` form). -/
inductive ErrValue where
  | httpError (e : HttpError)
  | jsError (message : String)
  | other (stringRepr : String)

/-- `HttpError.fromError(error, fallbackCode = 500)`: passes an existing
`HttpError` through unchanged, wraps an `Error` keeping its message and
setting it as `cause`, and stringifies anything else. The `stack` argument
models the stack string the runtime assigns to a freshly constructed error. -/
def HttpError.fromError (currentConfig : LibraryConfig) (error : ErrValue)
    (fallbackCode : Int) (stack : Option String) : HttpError :=
  match error with
  | .httpError e => e
  | .jsError m =>
    mkHttpError currentConfig fallbackCode { message := some m, cause := some m } stack
  | .other s =>
    mkHttpError currentConfig fallbackCode { message := some s } stack

/-- `HttpError.prototype.isClientError()`. -/
def HttpError.isClientError (e : HttpError) : Bool :=
  e.code ≥ 400 && e.code < 500

/-- `HttpError.prototype.isServerError()`. -/
def HttpError.isServerError (e : HttpError) : Bool :=
  e.code ≥ 500 && e.code < 600

-- ============================================================================
-- HttpResponse (src/responses/HttpResponse.ts, two copies in the repository)
-- ============================================================================

/-- The ambient state a formatter call reads: the configuration accessors
`shouldIncludeTimestamp()`, `isDevelopment()`, `getResponseTransformer()`
and the current instant (`new Date().toISOString()`). -/
structure FmtCtx where
  includeTimestamp : Bool
  isDev : Bool
  now : String
  responseTransformer : Option (JsObj → JsObj)

/-- Build a `FmtCtx` from the configuration store state and the clock,
applying the accessors' defaulting (`?? true`, `?? false`). -/
def mkFmtCtx (currentConfig : LibraryConfig) (now : String) : FmtCtx :=
  { includeTimestamp := shouldIncludeTimestamp currentConfig,
    isDev := isDevelopmentFn currentConfig,
    now := now,
    responseTransformer := currentConfig.responseTransformer }

/-- Apply the configured transformer as the final step, if any. -/
def applyTransformer (ctx : FmtCtx) (response : JsObj) : JsObj :=
  match ctx.responseTransformer with
  | some transformer => transformer response
  | none => response

/-- `SuccessResponseConfig` (src/types/index.ts): all fields optional; an
absent `data` is JavaScript `undefined`, hence `JsValue.undef` here. -/
structure SuccessResponseConfig where
  data : JsValue := .undef
  message : Option String := none
  statusCode : Option Int := none
  metadata : Option JsObj := none

/-- `ErrorResponseConfig` (src/types/index.ts). -/
structure ErrorResponseConfig where
  includeStack : Option Bool := none
  additionalFields : Option JsObj := none
  fallbackCode : Option Int := none

/-- `HttpResponse.success` of the older copy: destructures
`data = null`, and omits `data` only for 204 No Content and
205 Reset Content. -/
def success_v1 (ctx : FmtCtx) (config : SuccessResponseConfig) : JsObj :=
  let data := match config.data with | .undef => .null | d => d
  let statusCode := config.statusCode.getD HttpSuccessCode.OK
  let metadata := config.metadata.getD []
  let successInfo := getSuccessDefinition statusCode
  let response : JsObj :=
    [ ("success", .bool true), ("status_code", .num (.int successInfo.code)) ]
    ++ (if ctx.includeTimestamp then [("timestamp", .str ctx.now)] else [])
    ++ (if statusCode ≠ HttpSuccessCode.NO_CONTENT
          ∧ statusCode ≠ HttpSuccessCode.RESET_CONTENT then
          if isNullOrUndef data then [] else [("data", data)]
        else [])
    ++ (if strTruthy config.message then [("message", .str (config.message.getD ""))] else [])
    ++ (if metadata.isEmpty then [] else [("metadata", .obj metadata)])
  applyTransformer ctx response

/-- `HttpResponse.success` of the newer copy: no `null` default for `data`,
and 304 Not Modified joins the no-body exclusion list. -/
def success_v2 (ctx : FmtCtx) (config : SuccessResponseConfig) : JsObj :=
  let data := config.data
  let statusCode := config.statusCode.getD HttpSuccessCode.OK
  let metadata := config.metadata.getD []
  let successInfo := getSuccessDefinition statusCode
  let response : JsObj :=
    [ ("success", .bool true), ("status_code", .num (.int successInfo.code)) ]
    ++ (if ctx.includeTimestamp then [("timestamp", .str ctx.now)] else [])
    ++ (if statusCode ≠ HttpSuccessCode.NO_CONTENT
          ∧ statusCode ≠ HttpSuccessCode.RESET_CONTENT
          ∧ statusCode ≠ HttpRedirectCode.NOT_MODIFIED then
          if isNullOrUndef data then [] else [("data", data)]
        else [])
    ++ (if strTruthy config.message then [("message", .str (config.message.getD ""))] else [])
    ++ (if metadata.isEmpty then [] else [("metadata", .obj metadata)])
  applyTransformer ctx response

/-- The six envelope keys the newer `HttpResponse.error` strips from
`additionalFields` before merging. -/
def protectedKeys : List String :=
  ["success", "status_code", "error", "timestamp", "metadata", "retry_after"]

/-- The `...safeFields` rest after destructuring the six protected keys out
of `additionalFields`. -/
def stripProtected (additionalFields : JsObj) : JsObj :=
  additionalFields.filter (fun kv => ! protectedKeys.contains kv.1)

/-- The nested `error` object the newer `HttpResponse.error` builds:
`type`/`title`/`message` always, `details` when the error carries a truthy
one, `stack` when stack inclusion is active
(`config.includeStack ?? isDevelopment()`). -/
def errorObj_v2 (ctx : FmtCtx) (e : HttpError) (includeStack : Option Bool)
    (details : Option String) : JsObj :=
  [ ("type", .str e.type), ("title", .str e.title), ("message", .str e.message) ]
  ++ (match details with
      | some d => if d ≠ "" then [("details", .str d)] else []
      | none => [])
  ++ (if includeStack.getD ctx.isDev then
        [("stack", match e.stack with | some s => .str s | none => .undef)]
      else [])

/-- The envelope the newer `HttpResponse.error` has built just before the
`additionalFields` merge and the transformer. -/
def errorResponseBase (ctx : FmtCtx) (e : HttpError) (includeStack : Option Bool)
    (details : Option String) : JsObj :=
  [ ("success", .bool false),
    ("status_code", .num (.int e.code)),
    ("error", .obj (errorObj_v2 ctx e includeStack details)) ]
  ++ (if ctx.includeTimestamp then [("timestamp", .str ctx.now)] else [])
  ++ (if intTruthy e.retryAfter then
        [("retry_after", .num (.int (e.retryAfter.getD 0)))] else [])
  ++ (match e.metadata with | some m => [("metadata", .obj m)] | none => [])

/-- `HttpResponse.error` of the newer copy.  `details` is the value of the
`error.details` property read by the formatter — `none` for instances of
the `HttpError` class in this repository, which declares no such property.
The protected keys are stripped from `additionalFields` before the merge. -/
def error_v2 (ctx : FmtCtx) (e : HttpError) (config : ErrorResponseConfig)
    (details : Option String) : JsObj :=
  let response := errorResponseBase ctx e config.includeStack details
  let merged :=
    match config.additionalFields with
    | some additionalFields => objAssign response (stripProtected additionalFields)
    | none => response
  applyTransformer ctx merged

/-- `PaginationInput` (src/types/index.ts). -/
structure PaginationInput where
  page : Int
  limit : Int
  total : Int
  totalPages : Option Int := none

/-- The `metadata.pagination` object the newer `HttpResponse.paginated`
computes: `effectiveLimit = limit > 0 ? limit : 1`, and
`total_pages = totalPages ?? Math.ceil(total / effectiveLimit)`. -/
def paginationObj_v2 (pagination : PaginationInput) : JsObj :=
  let effectiveLimit := if pagination.limit > 0 then pagination.limit else 1
  let totalPagesNum :=
    match pagination.totalPages with
    | some t => JsNumber.int t
    | none => jsCeilDiv pagination.total effectiveLimit
  [ ("page", .num (.int pagination.page)),
    ("limit", .num (.int effectiveLimit)),
    ("total", .num (.int pagination.total)),
    ("total_pages", .num totalPagesNum),
    ("has_next", .bool (jsLtNum pagination.page totalPagesNum)),
    ("has_prev", .bool (pagination.page > 1)) ]

/-- `HttpResponse.paginated` of the newer copy: delegates to `success` with
`data = items` and `metadata.pagination` set to the computed object. -/
def paginated_v2 (ctx : FmtCtx) (data : List JsValue)
    (pagination : PaginationInput) (message : Option String) : JsObj :=
  success_v2 ctx
    { data := .arr data,
      message := message,
      metadata := some [("pagination", .obj (paginationObj_v2 pagination))] }

-- ============================================================================
-- Lemmas about the JavaScript object model
-- ============================================================================

theorem objGet_cons (k k' : String) (v : JsValue) (rest : JsObj) :
    objGet ((k', v) :: rest) k = if k = k' then some v else objGet rest k := by
  by_cases h : k = k'
  · subst h
    simp [objGet, List.lookup_cons]
  · simp [objGet, List.lookup_cons, beq_false_of_ne h, h]

theorem objGet_objSet_self (o : JsObj) (k : String) (v : JsValue) :
    objGet (objSet o k v) k = some v := by
  induction o with
  | nil => simp [objSet, objGet_cons]
  | cons kv rest ih =>
    obtain ⟨k', v'⟩ := kv
    by_cases h : k' = k
    · subst h
      simp [objSet, objGet_cons]
    · simp [objSet, beq_false_of_ne h, objGet_cons, Ne.symm h, ih]

theorem objGet_objSet_ne (o : JsObj) (k k' : String) (v : JsValue) (h : k ≠ k') :
    objGet (objSet o k' v) k = objGet o k := by
  induction o with
  | nil => simp [objSet, objGet_cons, h]
  | cons kv rest ih =>
    obtain ⟨k₀, v₀⟩ := kv
    by_cases h₀ : k₀ = k'
    · subst h₀
      simp [objSet, objGet_cons, h]
    · by_cases h₁ : k = k₀ <;>
        simp [objSet, beq_false_of_ne h₀, objGet_cons, h₁, ih]

theorem objGet_objAssign_not_mem (fields : JsObj) :
    ∀ (o : JsObj) (k : String), k ∉ fields.map Prod.fst →
      objGet (objAssign o fields) k = objGet o k := by
  induction fields with
  | nil => intro o k _; rfl
  | cons kv rest ih =>
    intro o k h
    obtain ⟨k', v'⟩ := kv
    simp only [List.map_cons, List.mem_cons] at h
    push_neg at h
    have step : objAssign o ((k', v') :: rest) = objAssign (objSet o k' v') rest := rfl
    rw [step, ih _ _ h.2, objGet_objSet_ne _ _ _ _ h.1]

theorem objGet_objAssign_nodup (fields : JsObj) :
    ∀ (o : JsObj) (k : String) (v : JsValue), (fields.map Prod.fst).Nodup →
      objGet fields k = some v → objGet (objAssign o fields) k = some v := by
  induction fields with
  | nil => intro o k v _ h; simp [objGet] at h
  | cons kv rest ih =>
    intro o k v hnd h
    obtain ⟨k', v'⟩ := kv
    simp only [List.map_cons, List.nodup_cons] at hnd
    have step : objAssign o ((k', v') :: rest) = objAssign (objSet o k' v') rest := rfl
    by_cases hk : k = k'
    · subst hk
      have hv : v' = v := by simpa [objGet_cons] using h
      subst hv
      rw [step, objGet_objAssign_not_mem _ _ _ hnd.1, objGet_objSet_self]
    · have h' : objGet rest k = some v := by simpa [objGet_cons, hk] using h
      rw [step, ih _ _ _ hnd.2 h']

theorem stripProtected_cons (k' : String) (v' : JsValue) (rest : JsObj) :
    stripProtected ((k', v') :: rest)
      = if protectedKeys.contains k' then stripProtected rest
        else (k', v') :: stripProtected rest := by
  by_cases hp : protectedKeys.contains k' <;>
    simp [stripProtected, List.filter_cons, hp]

theorem objGet_stripProtected_not_protected (additionalFields : JsObj) (k : String)
    (h : k ∉ protectedKeys) :
    objGet (stripProtected additionalFields) k = objGet additionalFields k := by
  induction additionalFields with
  | nil => rfl
  | cons kv rest ih =>
    obtain ⟨k', v'⟩ := kv
    rw [stripProtected_cons]
    by_cases hp : protectedKeys.contains k'
    · have hk : k ≠ k' := by
        intro e
        subst e
        exact h (by simpa using hp)
      rw [if_pos hp, ih, objGet_cons, if_neg hk]
    · rw [if_neg hp, objGet_cons, objGet_cons, ih]

theorem not_mem_stripProtected_keys (additionalFields : JsObj) (k : String)
    (h : k ∈ protectedKeys) :
    k ∉ (stripProtected additionalFields).map Prod.fst := by
  intro hmem
  obtain ⟨kv, hkv, hfst⟩ := List.mem_map.mp hmem
  have hpred := List.of_mem_filter hkv
  rw [hfst, Bool.not_eq_true'] at hpred
  have hnot : k ∉ protectedKeys := by simpa using hpred
  exact hnot h

theorem nodup_stripProtected_keys (additionalFields : JsObj)
    (h : (additionalFields.map Prod.fst).Nodup) :
    ((stripProtected additionalFields).map Prod.fst).Nodup := by
  have hsub : List.Sublist (stripProtected additionalFields) additionalFields :=
    List.filter_sublist additionalFields
  exact (hsub.map Prod.fst).nodup h

theorem objGet_nil (k : String) : objGet [] k = none := rfl

theorem objGet_append (l₁ l₂ : JsObj) (k : String) :
    objGet (l₁ ++ l₂) k = (objGet l₁ k).or (objGet l₂ k) :=
  List.lookup_append

-- ============================================================================
-- Claim theorems
-- ============================================================================

/-- Claim C1: constructing an error with a code outside 400-599 is claimed to
fail with a range error, and `fromError` with an out-of-range `fallbackCode`
likewise.  The constructor in the repository performs no range validation:
it is a total function, so `new HttpError(200)` succeeds and (through the
definition fallback) even reports code 500, and
`HttpError.fromError(new Error("test"), 200)` succeeds the same way, while
in-range construction succeeds as claimed. -/
theorem c1_constructor_performs_no_range_check :
    (mkHttpError (defaultConfig none) 200 {} none).name = "HttpError"
    ∧ (mkHttpError (defaultConfig none) 200 {} none).code = 500
    ∧ (HttpError.fromError (defaultConfig none) (.jsError "test") 200 none).code = 500
    ∧ (mkHttpError (defaultConfig none) 404 {} none).code = 404
    ∧ (mkHttpError (defaultConfig none) 599 {} none).name = "HttpError" :=
  ⟨rfl, rfl, rfl, rfl, rfl⟩

/-- Claim C2: unmapped in-range codes are claimed to be preserved with a
generic range-based classification.  The repository's `getErrorDefinition`
instead falls back to the table's 500 entry, so 499 and 599 come back as
code 500, type `internal_server_error` — the caller's code is not
preserved and no `unknown_client_error`/`unknown_server_error`
classification exists anywhere in the table. -/
theorem c2_unmapped_codes_coerced_to_500 :
    (getErrorDefinition 499).code = 500
    ∧ (getErrorDefinition 499).type = "internal_server_error"
    ∧ (getErrorDefinition 499).title = "Internal Server Error"
    ∧ (getErrorDefinition 599).code = 500
    ∧ (getErrorDefinition 599).type = "internal_server_error"
    ∧ (mkHttpError (defaultConfig none) 499 {} none).code = 500 :=
  ⟨rfl, rfl, rfl, rfl, rfl, rfl⟩

/-- Claim C3: the message precedence
(`options.message ?? customMessage ?? definition.details`) holds in the
constructor, but the class declares no `details` attribute at all and its
`toJSON()` projection contains no `details` key, so the half of the claim
about `details` fails on this code (the repository's own tests expect it). -/
theorem c3_message_precedence_but_no_details_attribute :
    (mkHttpError (defaultConfig none) 404 { message := some "Custom" } none).message = "Custom"
    ∧ (mkHttpError (defaultConfig none) 404 {} none).message
        = "The requested resource could not be found."
    ∧ (mkHttpError
        (configure (defaultConfig none) { customMessages := some [(404, "configured")] })
        404 {} none).message = "configured"
    ∧ objGet (HttpError.toJSON
        (mkHttpError (defaultConfig none) 404 { message := some "Custom" } none))
        "details" = none :=
  ⟨rfl, rfl, rfl, rfl⟩

/-- Claim C4: `customMessages` is claimed to merge key-by-key across
`configure` calls.  The `configure` in the repository is a shallow object
spread, so a second partial call replaces the whole `customMessages` map:
after configuring 404 then 500, the 404 entry is gone (the repository's own
test suite expects it to survive).  The first conjunct characterizes the
wholesale replacement in general. -/
theorem c4_customMessages_replaced_wholesale :
    (∀ (currentConfig : LibraryConfig) (messages : List (Int × String)),
      (configure currentConfig { customMessages := some messages }).customMessages
        = some messages)
    ∧ getCustomMessage
        (configure (configure (defaultConfig none) { customMessages := some [(404, "A")] })
          { customMessages := some [(500, "B")] }) 404 = none
    ∧ getCustomMessage
        (configure (configure (defaultConfig none) { customMessages := some [(404, "A")] })
          { customMessages := some [(500, "B")] }) 500 = some "B" :=
  ⟨fun _ _ => rfl, rfl, rfl⟩

/-- Claim C8: `isDevelopment()` is claimed to re-evaluate the environment
signal at each call when not explicitly configured.  In the repository the
signal is read once into `defaultConfig` when the module loads, and the
accessor only returns the stored flag: its result is a function of the
load-time signal alone, so a process loaded outside development mode keeps
answering `false` even once the call-time signal is `development`. -/
theorem c8_isDevelopment_cached_at_load :
    (∀ nodeEnvAtLoad, isDevelopmentFn (defaultConfig nodeEnvAtLoad) = envSignal nodeEnvAtLoad)
    ∧ isDevelopmentFn (defaultConfig none) = false
    ∧ envSignal (some "development") = true :=
  ⟨fun _ => rfl, rfl, rfl⟩

/-- Claim C9: `fromError` passes an existing `HttpError` through unchanged
(same object, hence same code, type, message, metadata, cause and
retryAfter), so converting the result of any conversion again is the
identity on content. -/
theorem c9_fromError_idempotent_pass_through :
    (∀ (currentConfig : LibraryConfig) (e : HttpError) (fallbackCode : Int)
        (stack : Option String),
      HttpError.fromError currentConfig (.httpError e) fallbackCode stack = e)
    ∧ (∀ (currentConfig currentConfig' : LibraryConfig) (v : ErrValue)
        (fallbackCode fallbackCode' : Int) (stack stack' : Option String),
      HttpError.fromError currentConfig'
          (.httpError (HttpError.fromError currentConfig v fallbackCode stack))
          fallbackCode' stack'
        = HttpError.fromError currentConfig v fallbackCode stack) :=
  ⟨fun _ _ _ _ => rfl, fun _ _ _ _ _ _ _ => rfl⟩

/-- Claim C5: in the newer `HttpResponse.error`, the six protected envelope
keys keep the values the formatter itself computed — the merge with the
caller's `additionalFields` never overwrites them and raises no error —
while every non-protected key of `additionalFields` reaches the envelope
with its supplied value. -/
theorem c5_error_protected_fields (ctx : FmtCtx) (e : HttpError)
    (config : ErrorResponseConfig) (additionalFields : JsObj) (details : Option String)
    (hT : ctx.responseTransformer = none)
    (hA : config.additionalFields = some additionalFields)
    (hnd : (additionalFields.map Prod.fst).Nodup) :
    (∀ k, k ∈ protectedKeys →
      objGet (error_v2 ctx e config details) k
        = objGet (error_v2 ctx e { config with additionalFields := none } details) k)
    ∧ (∀ k v, k ∉ protectedKeys → objGet additionalFields k = some v →
      objGet (error_v2 ctx e config details) k = some v) := by
  have hu : error_v2 ctx e config details
      = objAssign (errorResponseBase ctx e config.includeStack details)
          (stripProtected additionalFields) := by
    simp [error_v2, hA, applyTransformer, hT]
  have hu2 : error_v2 ctx e { config with additionalFields := none } details
      = errorResponseBase ctx e config.includeStack details := by
    simp [error_v2, applyTransformer, hT]
  constructor
  · intro k hk
    rw [hu, hu2, objGet_objAssign_not_mem _ _ _ (not_mem_stripProtected_keys _ _ hk)]
  · intro k v hk hv
    rw [hu]
    exact objGet_objAssign_nodup _ _ _ _ (nodup_stripProtected_keys _ hnd)
      ((objGet_stripProtected_not_protected _ _ hk).trans hv)

/-- A formatter context with every optional behavior off, used to evaluate
the formatter theorems at concrete inputs. -/
def plainCtx : FmtCtx :=
  { includeTimestamp := false, isDev := false, now := "", responseTransformer := none }

/-- A 400 error, the extension object of the specification's example, and
the error-response configuration carrying it. -/
def c5err : HttpError := mkHttpError (defaultConfig none) 400 {} none

def c5af : JsObj := [("status_code", .num (.int 999)), ("success", .bool true), ("tag", .str "ok")]

def c5config : ErrorResponseConfig := { additionalFields := some c5af }

/-- Witness for C5 at the specification's example: on a 400 error with
`additionalFields = {status_code: 999, success: true, tag: "ok"}`, the
protected `status_code` and `success` keep the formatter's values (400 and
`false`) and `tag` passes through. -/
theorem c5_error_protected_fields_witness :
    plainCtx.responseTransformer = none
    ∧ c5config.additionalFields = some c5af
    ∧ (c5af.map Prod.fst).Nodup
    ∧ objGet (error_v2 plainCtx c5err c5config none) "status_code"
        = objGet (error_v2 plainCtx c5err { c5config with additionalFields := none } none)
            "status_code"
    ∧ objGet (error_v2 plainCtx c5err c5config none) "tag" = some (.str "ok")
    ∧ objGet (error_v2 plainCtx c5err c5config none) "status_code" = some (.num (.int 400))
    ∧ objGet (error_v2 plainCtx c5err c5config none) "success" = some (.bool false) :=
  ⟨rfl, rfl, by decide,
   (c5_error_protected_fields plainCtx c5err c5config c5af none rfl rfl (by decide)).1
     "status_code" (by decide),
   (c5_error_protected_fields plainCtx c5err c5config c5af none rfl rfl (by decide)).2
     "tag" (.str "ok") (by decide) rfl,
   rfl, rfl⟩

/-- Claim C6: the pagination metadata of the newer `HttpResponse.paginated`
echoes the clamped effective limit (`limit` when positive, else 1), its
`total_pages` is the supplied `totalPages` or else the ceiling division by
the effective limit — always a finite integer, never an infinite or NaN
value, even for `limit = 0` — `has_next` is `page < total_pages`, and
`has_prev` is `page > 1`; the envelope's `metadata.pagination` carries
exactly this object. -/
theorem c6_paginated_pagination_math (ctx : FmtCtx) (data : List JsValue)
    (pagination : PaginationInput) (message : Option String)
    (hT : ctx.responseTransformer = none) :
    objGet (paginated_v2 ctx data pagination message) "metadata"
      = some (.obj [("pagination", .obj (paginationObj_v2 pagination))])
    ∧ objGet (paginationObj_v2 pagination) "limit"
        = some (.num (.int (if pagination.limit > 0 then pagination.limit else 1)))
    ∧ (∀ tp, pagination.totalPages = some tp →
        objGet (paginationObj_v2 pagination) "total_pages" = some (.num (.int tp))
        ∧ objGet (paginationObj_v2 pagination) "has_next"
            = some (.bool (decide (pagination.page < tp))))
    ∧ (pagination.totalPages = none →
        objGet (paginationObj_v2 pagination) "total_pages"
          = some (.num (.int (ceilDivInt pagination.total
              (if pagination.limit > 0 then pagination.limit else 1))))
        ∧ objGet (paginationObj_v2 pagination) "has_next"
            = some (.bool (decide (pagination.page < ceilDivInt pagination.total
                (if pagination.limit > 0 then pagination.limit else 1)))))
    ∧ objGet (paginationObj_v2 pagination) "has_prev"
        = some (.bool (decide (pagination.page > 1))) := by
  have heff : (if pagination.limit > 0 then pagination.limit else 1) ≠ 0 := by
    split <;> omega
  refine ⟨?_, ?_, ?_, ?_, ?_⟩
  · by_cases h1 : ctx.includeTimestamp <;> by_cases h2 : strTruthy message <;>
      simp [paginated_v2, success_v2, applyTransformer, hT, h1, h2,
        HttpSuccessCode.OK, HttpSuccessCode.NO_CONTENT, HttpSuccessCode.RESET_CONTENT,
        HttpRedirectCode.NOT_MODIFIED, isNullOrUndef, objGet_append, objGet_cons, objGet_nil]
  · simp [paginationObj_v2, objGet_cons]
  · intro tp htp
    constructor <;> simp [paginationObj_v2, htp, objGet_cons, jsLtNum]
  · intro htp
    constructor <;> simp [paginationObj_v2, htp, objGet_cons, jsCeilDiv, heff, jsLtNum]
  · simp [paginationObj_v2, objGet_cons]

/-- The pagination input of the specification's division-by-zero example. -/
def c6pagination : PaginationInput := { page := 1, limit := 0, total := 10 }

/-- Witness for C6 at `{page: 1, limit: 0, total: 10}`: the limit is
clamped to 1, `total_pages` is the finite integer 10, `has_next` is true
and `has_prev` is false. -/
theorem c6_paginated_pagination_math_witness :
    plainCtx.responseTransformer = none
    ∧ objGet (paginationObj_v2 c6pagination) "limit" = some (.num (.int 1))
    ∧ objGet (paginationObj_v2 c6pagination) "total_pages" = some (.num (.int 10))
    ∧ objGet (paginationObj_v2 c6pagination) "has_next" = some (.bool true)
    ∧ objGet (paginationObj_v2 c6pagination) "has_prev" = some (.bool false)
    ∧ objGet (paginated_v2 plainCtx [.num (.int 1)] c6pagination none) "metadata"
        = some (.obj [("pagination", .obj (paginationObj_v2 c6pagination))]) := by
  have h := c6_paginated_pagination_math plainCtx [.num (.int 1)] c6pagination none rfl
  have h4 := h.2.2.2.1 rfl
  exact ⟨rfl, by simpa using h.2.1, by simpa [ceilDivInt] using h4.1,
    by simpa [ceilDivInt] using h4.2, by simpa using h.2.2.2.2, h.1⟩

/-- The value `objGet (success_v2 ...) "data"` takes in general: present
with the supplied payload exactly when the effective status code is none of
204/205/304 and the payload is neither null nor undefined. -/
theorem success_v2_data_characterization (ctx : FmtCtx) (config : SuccessResponseConfig)
    (hT : ctx.responseTransformer = none) :
    objGet (success_v2 ctx config) "data"
      = if (config.statusCode.getD 200 ≠ 204 ∧ config.statusCode.getD 200 ≠ 205
            ∧ config.statusCode.getD 200 ≠ 304) ∧ isNullOrUndef config.data = false
        then some config.data else none := by
  simp only [success_v2, applyTransformer, hT, HttpSuccessCode.OK,
    HttpSuccessCode.NO_CONTENT, HttpSuccessCode.RESET_CONTENT, HttpRedirectCode.NOT_MODIFIED]
  by_cases h1 : ctx.includeTimestamp <;>
    by_cases h2 : (config.statusCode.getD 200 ≠ 204 ∧ config.statusCode.getD 200 ≠ 205
      ∧ config.statusCode.getD 200 ≠ 304) <;>
    by_cases h3 : isNullOrUndef config.data <;>
    by_cases h4 : strTruthy config.message <;>
    by_cases h5 : (config.metadata.getD []).isEmpty <;>
    simp [h1, h2, h3, h4, h5, objGet_append, objGet_cons, objGet_nil]

/-- Claim C7: the newer `HttpResponse.success` omits `data` from the
envelope — even when a payload is supplied — whenever the effective status
code is 204, 205 or 304, and for every other status code includes a
supplied non-null, non-undefined payload. -/
theorem c7_success_no_body_codes (ctx : FmtCtx) (config : SuccessResponseConfig)
    (hT : ctx.responseTransformer = none) :
    ((config.statusCode.getD 200 = 204 ∨ config.statusCode.getD 200 = 205
        ∨ config.statusCode.getD 200 = 304) →
      objGet (success_v2 ctx config) "data" = none)
    ∧ ((config.statusCode.getD 200 ≠ 204 ∧ config.statusCode.getD 200 ≠ 205
        ∧ config.statusCode.getD 200 ≠ 304) →
       config.data ≠ .null → config.data ≠ .undef →
      objGet (success_v2 ctx config) "data" = some config.data) := by
  rw [success_v2_data_characterization ctx config hT]
  constructor
  · intro h3
    rw [if_neg]
    rintro ⟨⟨ha, hb, hc⟩, -⟩
    rcases h3 with h | h | h
    · exact ha h
    · exact hb h
    · exact hc h
  · intro hcode hnull hundef
    rw [if_pos]
    refine ⟨hcode, ?_⟩
    cases hd : config.data <;> simp [isNullOrUndef] <;> simp [hd] at hnull hundef

def c7config204 : SuccessResponseConfig := { data := .str "x", statusCode := some 204 }

def c7config205 : SuccessResponseConfig := { data := .str "x", statusCode := some 205 }

def c7config304 : SuccessResponseConfig := { data := .str "x", statusCode := some 304 }

def c7config200 : SuccessResponseConfig := { data := .str "x", statusCode := some 200 }

/-- Witness for C7: supplied data is dropped at 204, 205 and 304 and kept
at 200. -/
theorem c7_success_no_body_codes_witness :
    plainCtx.responseTransformer = none
    ∧ objGet (success_v2 plainCtx c7config204) "data" = none
    ∧ objGet (success_v2 plainCtx c7config205) "data" = none
    ∧ objGet (success_v2 plainCtx c7config304) "data" = none
    ∧ objGet (success_v2 plainCtx c7config200) "data" = some (.str "x") :=
  ⟨rfl,
   (c7_success_no_body_codes plainCtx c7config204 rfl).1 (Or.inl (by decide)),
   (c7_success_no_body_codes plainCtx c7config205 rfl).1 (Or.inr (Or.inl (by decide))),
   (c7_success_no_body_codes plainCtx c7config304 rfl).1 (Or.inr (Or.inr (by decide))),
   (c7_success_no_body_codes plainCtx c7config200 rfl).2 (by decide)
     (by simp [c7config200]) (by simp [c7config200])⟩

def c10config304 : SuccessResponseConfig := { data := .str "x", statusCode := some 304 }

def c10config200 : SuccessResponseConfig := { data := .str "x", statusCode := some 200 }

/-- Counterexample to claim C10 as stated: the two `HttpResponse.success`
implementations disagree at status code 304 with a supplied payload — the
older one keeps `data`, the newer one drops it — so the two copies are not
extensionally equal. -/
theorem c10_counterexample_success_versions_differ :
    success_v1 plainCtx c10config304 ≠ success_v2 plainCtx c10config304
    ∧ objGet (success_v1 plainCtx c10config304) "data" = some (.str "x")
    ∧ objGet (success_v2 plainCtx c10config304) "data" = none := by
  refine ⟨?_, rfl, rfl⟩
  intro h
  have h2 : objGet (success_v1 plainCtx c10config304) "data"
      = objGet (success_v2 plainCtx c10config304) "data" :=
    congrArg (fun o => objGet o "data") h
  have e1 : objGet (success_v1 plainCtx c10config304) "data" = some (.str "x") := rfl
  have e2 : objGet (success_v2 plainCtx c10config304) "data" = none := rfl
  rw [e1, e2] at h2
  exact Option.noConfusion h2

/-- Claim C10 (amended): the two `HttpResponse` copies are not
extensionally equal; restricted to inputs whose effective status code is
not 304, the two `success` implementations produce identical envelopes. -/
theorem c10_success_versions_agree_off_304 (ctx : FmtCtx) (config : SuccessResponseConfig)
    (h : config.statusCode.getD 200 ≠ 304) :
    success_v1 ctx config = success_v2 ctx config := by
  unfold success_v1 success_v2
  simp only [HttpSuccessCode.OK, HttpSuccessCode.NO_CONTENT, HttpSuccessCode.RESET_CONTENT,
    HttpRedirectCode.NOT_MODIFIED]
  by_cases hA : config.statusCode.getD 200 = 204 <;>
    by_cases hB : config.statusCode.getD 200 = 205 <;>
    cases hd : config.data <;>
    simp [hA, hB, h, hd, isNullOrUndef]

/-- Witness for the amended C10 at a concrete off-304 input. -/
theorem c10_success_versions_agree_off_304_witness :
    c10config200.statusCode.getD 200 ≠ 304
    ∧ success_v1 plainCtx c10config200 = success_v2 plainCtx c10config200 :=
  ⟨by decide, c10_success_versions_agree_off_304 plainCtx c10config200 (by decide)⟩
